import Mathlib

/-!
Verification of the request/retry/error-classification layer of a Postman
API client (scripts/postman_client.py, scripts/config.py).

Pure fragments of the Python source are embedded as Lean functions.  The
response body is represented by the outcome of Python's `json.loads` on the
raw body text: a body is either empty, parses to a JSON value, or is
malformed; this partition is exactly what every embedded code path inspects.
The retry handler and the exception factory live in `utils/retry_handler.py`
and `utils/exceptions.py`, which are imported by the client but are not part
of the available sources; those two components are modelled from the design
document and are marked as such in their doc comments.
-/

/-- JSON values as produced by Python's `json.loads`: objects are ordered
field lists (a `dict` has pairwise-distinct keys by construction). -/
inductive Json where
  | null
  | bool (b : Bool)
  | num (n : Int)
  | str (s : String)
  | arr (elems : List Json)
  | obj (fields : List (String × Json))

/-- Substring containment on character lists, mirroring Python's
`needle in haystack` for strings: true iff `needle` occurs contiguously
inside `haystack`. -/
def containsSub : List Char → List Char → Bool
  | [], needle => needle.isEmpty
  | a :: t, needle => needle.isPrefixOf (a :: t) || containsSub t needle

/-- Lower-casing of a string character by character, mirroring
`str.lower` on the ASCII range. -/
def lowerStr (s : String) : String := String.mk (s.data.map Char.toLower)

/-- Equality of a JSON value with a Python string, as used by `in` on a
Python list: only an equal string compares equal. -/
def jsonIsStr : Json → String → Bool
  | .str t, s => t == s
  | _, _ => false

/-- Python's `k in data` for a JSON value `data`: key membership for a
dict, element membership for a list, substring test for a string; `none`
models the `TypeError` raised on non-container values. -/
def pyContains : Json → String → Option Bool
  | .obj fields, k => some (fields.any (fun p => p.1 == k))
  | .arr elems, k => some (elems.any (fun j => jsonIsStr j k))
  | .str s, k => some (containsSub s.data k.data)
  | _, _ => none

/-- Python's `data[k]` for a string key: dict lookup; `none` models the
`TypeError` raised when indexing a list or a string with a string key. -/
def pyIndex : Json → String → Option Json
  | .obj fields, k => (fields.find? (fun p => p.1 == k)).map (fun p => p.2)
  | _, _ => none

/-- Embeds `PostmanClient._has_v10_structure` (scripts/postman_client.py,
lines 67-88) including its final unconditional `return True` ("default to
assuming v10+").  The result `none` models a `TypeError` escaping the
method, which its caller's bare `except` catches. -/
def hasV10Structure (data : Json) : Option Bool :=
  match pyContains data "meta" with
  | none => none
  | some true => some true
  | some false =>
    match pyContains data "collection" with
    | none => none
    | some false => some true
    | some true =>
      match pyIndex data "collection" with
      | none => none
      | some collection =>
        match pyContains collection "fork" with
        | none => none
        | some true => some true
        | some false =>
          match pyContains collection "meta" with
          | none => none
          | some true => some true
          | some false => some true

/-- Classification of a raw HTTP body text by what `json.loads` does with
it: empty, parsed to a JSON value, or malformed (a parse error). -/
inductive BodyRep where
  | empty
  | json (j : Json)
  | malformed

/-- Embeds `MockResponse.json` (scripts/postman_client.py, line 199):
`json.loads(self._body) if self._body else {}`.  `none` models the
`json.JSONDecodeError` raised on a malformed non-empty body. -/
def respJsonE : BodyRep → Option Json
  | .empty => some (Json.obj [])
  | .json j => some j
  | .malformed => none

/-- The response data reaching the post-retry code of `_make_request`:
HTTP status, the `X-API-Version` header if present, and the body. -/
structure Response where
  status : Nat
  versionHeader : Option String
  body : BodyRep

/-- The mutable per-client fields touched by version detection
(`self.api_version`, `self.api_version_warned`). -/
structure ClientState where
  api_version : Option String
  api_version_warned : Bool

/-- The label computed by the body-probe branch of `_detect_api_version`
(scripts/postman_client.py, lines 52-61): parse the body, test the v10
structure, and fall back to `'unknown'` on any exception. -/
def bodyLabel (b : BodyRep) : String :=
  match respJsonE b with
  | none => "unknown"
  | some data =>
    match hasV10Structure data with
    | none => "unknown"
    | some true => "v10+"
    | some false => "v9-or-earlier"

/-- Embeds the body-probe tail of `_detect_api_version` (lines 52-65):
record the label, then raise the one-time old-version warning when the
label does not start with `v10`. -/
def detectFromBody (st : ClientState) (r : Response) : ClientState :=
  let label := bodyLabel r.body
  let st1 : ClientState := { st with api_version := some label }
  if ¬label.data.isEmpty ∧ ¬(("v10".data).isPrefixOf label.data) ∧ ¬st1.api_version_warned then
    { st1 with api_version_warned := true }
  else st1

/-- Embeds `PostmanClient._detect_api_version` (lines 38-65): a truthy
`X-API-Version` header wins and returns early; otherwise the body shape is
probed. -/
def detectApiVersion (st : ClientState) (r : Response) : ClientState :=
  match r.versionHeader with
  | some h => if ¬h.data.isEmpty then { st with api_version := some h } else detectFromBody st r
  | none => detectFromBody st r

/-- The label that `_detect_api_version` stores, as a pure function of
the response alone. -/
def detectLabel (r : Response) : String :=
  match r.versionHeader with
  | some h => if ¬h.data.isEmpty then h else bodyLabel r.body
  | none => bodyLabel r.body

/-- The closed error taxonomy of the design: one kind per exception class
of `utils/exceptions.py`. -/
inductive ErrorKind where
  | authentication
  | permission
  | resourceNotFound
  | validation
  | rateLimit
  | server
  | network
  | timeout
  | unknown
deriving DecidableEq, Repr

/-- A classified error: kind, HTTP status when one applies, and message. -/
structure PError where
  kind : ErrorKind
  status : Option Nat
  msg : String
deriving DecidableEq, Repr

/-- Modelled from the spec: the transient kinds that the Retry Policy of
`utils/retry_handler.py` (absent from the sources) retries — Network,
Timeout, RateLimit and Server; all other kinds propagate immediately. -/
def retryable : ErrorKind → Bool
  | .network => true
  | .timeout => true
  | .rateLimit => true
  | .server => true
  | _ => false

/-- Modelled from the spec: the backoff delay before the next attempt — a
fixed configured delay for RateLimit, otherwise exponential in the attempt
number. -/
def backoffDelay (rateLimitDelay : Nat) (e : PError) (attempt : Nat) : Nat :=
  if e.kind = ErrorKind.rateLimit then rateLimitDelay else 2 ^ attempt

/-- Modelled from the spec: the status-to-kind mapping of
`create_exception_from_response` in `utils/exceptions.py` (absent from the
sources): 401, 403, 404, 400/422, 429, 500-599, and Unknown otherwise. -/
def classifyStatus (status : Nat) : ErrorKind :=
  if status = 401 then .authentication
  else if status = 403 then .permission
  else if status = 404 then .resourceNotFound
  else if status = 400 ∨ status = 422 then .validation
  else if status = 429 then .rateLimit
  else if 500 ≤ status ∧ status ≤ 599 then .server
  else .unknown

/-- Modelled from the spec: the best-effort extraction of a `message`
field from the response body used when building an error message; a
malformed body falls back to a generic phrase. -/
def bodyMessage : BodyRep → String
  | .json j =>
    match pyIndex j "message" with
    | some (.str m) => m
    | _ => ""
  | .empty => ""
  | .malformed => "Unknown error"

/-- Modelled from the spec: the fixed message template of each kind. -/
def kindTemplate : ErrorKind → String
  | .authentication => "Authentication failed: "
  | .permission => "Permission denied: "
  | .resourceNotFound => "Resource not found: "
  | .validation => "Validation failed: "
  | .rateLimit => "Rate limit exceeded: "
  | .server => "Server error: "
  | .network => "Network error: "
  | .timeout => "Request timed out: "
  | .unknown => "API error: "

/-- The input of the error classifier: a completed HTTP response, or one
of the two transport-failure signals. -/
inductive TransportSignal where
  | httpResponse (status : Nat) (body : BodyRep)
  | connectionFailure (detail : String)
  | timedOut (seconds : Nat)

/-- Modelled from the spec: the full classifier — a received response is
mapped through the status table, a connection failure to Network, an
exceeded time budget to Timeout.  Total by construction. -/
def classify : TransportSignal → PError
  | .httpResponse s b =>
    ⟨classifyStatus s, some s, kindTemplate (classifyStatus s) ++ bodyMessage b⟩
  | .connectionFailure d => ⟨.network, none, kindTemplate .network ++ d⟩
  | .timedOut secs => ⟨.timeout, none, kindTemplate .timeout ++ toString secs⟩

/-- Classification of an error response, as invoked by `_make_request`
line 231 (`create_exception_from_response(response)`). -/
def classifyResponse (r : Response) : PError := classify (.httpResponse r.status r.body)

/-- The observable outcome of one `_make_request` call after the retry
loop returned a response: parsed success, a classified API error raised on
status >= 400, or the uncaught decode error of line 234. -/
inductive CallOutcome where
  | success (j : Json)
  | apiError (e : PError)
  | decodeError

/-- Embeds the tail of `_make_request` (scripts/postman_client.py, lines
225-234): one-time version detection when `api_version` is still unset,
then the status check and the final `response.json()`. -/
def makeRequestTail (st : ClientState) (r : Response) : ClientState × CallOutcome :=
  ((if st.api_version.isNone then detectApiVersion st r else st),
   (if 400 ≤ r.status then CallOutcome.apiError (classifyResponse r)
    else
      match respJsonE r.body with
      | some j => CallOutcome.success j
      | none => CallOutcome.decodeError))

/-- Folding a sequence of later responses through the post-retry tail,
tracking only the client state. -/
def processResponses (st : ClientState) (rs : List Response) : ClientState :=
  rs.foldl (fun s r => (makeRequestTail s r).1) st

/-- Outcome of one run of the Retry Policy: final result, number of calls
made to the wrapped operation, and the backoff sleeps performed. -/
structure RetryResult (α : Type) where
  result : Except PError α
  calls : Nat
  sleeps : List Nat
deriving Repr

/-- Modelled from the spec: the retry loop of `RetryHandler.execute` in
`utils/retry_handler.py` (absent from the sources).  `op n` is the outcome
of the n-th call (0-based); `fuel` is the number of retries still allowed.
On a retryable failure with fuel left the loop sleeps and re-calls;
otherwise the error propagates unchanged. -/
def runRetry {α : Type} (rateLimitDelay : Nat) (op : Nat → Except PError α) :
    Nat → Nat → RetryResult α
  | attempt, fuel =>
    match op attempt with
    | .ok a => ⟨.ok a, attempt + 1, []⟩
    | .error e =>
      if retryable e.kind then
        match fuel with
        | 0 => ⟨.error e, attempt + 1, []⟩
        | f + 1 =>
          let r := runRetry rateLimitDelay op (attempt + 1) f
          ⟨r.result, r.calls, backoffDelay rateLimitDelay e attempt :: r.sleeps⟩
      else ⟨.error e, attempt + 1, []⟩

/-- Modelled from the spec: `RetryHandler.execute` — run the operation
with at most `maxRetries` retries after the initial attempt. -/
def retryExecute {α : Type} (op : Nat → Except PError α) (maxRetries : Nat) : RetryResult α :=
  runRetry 60 op 0 maxRetries

/-- Embeds `PostmanConfig` (scripts/config.py): the environment-sourced
fields, with `none` for an unset variable. -/
structure PostmanConfig where
  api_key : Option String
  workspace_id : Option String := none
  rate_limit_delay : Nat := 60
  max_retries : Nat := 3
  timeout : Nat := 30
  log_level : String := "INFO"

/-- Embeds `PostmanConfig.validate` (scripts/config.py, lines 29-50).
Python's `not self.api_key` is true for an unset or empty key; otherwise
the `PMAK-` format check runs. -/
def PostmanConfig.validate (c : PostmanConfig) : Except String Unit :=
  match c.api_key with
  | none => .error "POSTMAN_API_KEY not set."
  | some k =>
    if k.data.isEmpty then .error "POSTMAN_API_KEY not set."
    else if ¬(("PMAK-".data).isPrefixOf k.data) then
      .error "Invalid POSTMAN_API_KEY format."
    else .ok ()

/-- The fields established by `PostmanClient.__init__` (lines 31-36):
validated config, the retry handler's bound, and the fresh detection
state.  No HTTP operation occurs during construction. -/
structure ClientInit where
  config : PostmanConfig
  retryMaxRetries : Nat
  state : ClientState

/-- Embeds `PostmanClient.__init__` (scripts/postman_client.py, lines
31-36): validate the configuration first and fail construction on a
validation error, otherwise start with `api_version = None`. -/
def PostmanClient.init (c : PostmanConfig) : Except String ClientInit :=
  match c.validate with
  | .error e => .error e
  | .ok _ => .ok ⟨c, c.max_retries, ⟨none, false⟩⟩

/-- Boolean success test for an `Except` value. -/
def exceptIsOk {ε α : Type} : Except ε α → Bool
  | .ok _ => true
  | .error _ => false

/-- Embeds the keyword list of `_detect_secret_type`
(scripts/postman_client.py, lines 610-614). -/
def sensitiveKeywords : List String :=
  ["key", "token", "secret", "password", "passwd",
   "pwd", "auth", "credential", "private", "apikey",
   "api_key", "bearer", "authorization"]

/-- The scanning loop of `_detect_secret_type` (lines 617-621): return
`'secret'` on the first keyword found in the lowered key. -/
def secretScan (keyLower : List Char) : List String → String
  | [] => "default"
  | kw :: rest => if containsSub keyLower kw.data then "secret" else secretScan keyLower rest

/-- Embeds `PostmanClient._detect_secret_type` (lines 600-621). -/
def detectSecretType (key : String) : String :=
  secretScan (lowerStr key).data sensitiveKeywords

/-- An environment variable entry as handled by `update_environment`:
`type` is optional because the code reads it with `.get('type')`. -/
structure EnvVar where
  key : String
  value : String
  type : Option String
  enabled : Bool
deriving DecidableEq, Repr

/-- Insertion into a Python dict modelled as an ordered association list:
overwriting an existing key keeps its position, a new key appends. -/
def dinsert (m : List (String × EnvVar)) (k : String) (v : EnvVar) : List (String × EnvVar) :=
  match m with
  | [] => [(k, v)]
  | (k', v') :: rest => if k' = k then (k', v) :: rest else (k', v') :: dinsert rest k v

/-- Lookup in the ordered association list. -/
def dlookup (m : List (String × EnvVar)) (k : String) : Option EnvVar :=
  match m with
  | [] => none
  | (k', v') :: rest => if k' = k then some v' else dlookup rest k

/-- Embeds line 661 of `update_environment`:
`current_vars = {v['key']: v for v in current.get('values', [])}`. -/
def buildVarMap (vars : List EnvVar) : List (String × EnvVar) :=
  vars.foldl (fun m v => dinsert m v.key v) []

/-- Embeds one iteration of the dict branch of `update_environment`
(lines 665-680): an existing variable gets the new value and keeps a
`'secret'` type (otherwise its type is recomputed from the key); a new
variable is added with an auto-detected type. -/
def applyUpdate (m : List (String × EnvVar)) (k val : String) : List (String × EnvVar) :=
  match dlookup m k with
  | some v =>
    let v1 : EnvVar := { v with value := val }
    let v2 : EnvVar :=
      if v1.type ≠ some "secret" then { v1 with type := some (detectSecretType k) } else v1
    dinsert m k v2
  | none => dinsert m k ⟨k, val, some (detectSecretType k), true⟩

/-- The variable map after all updates of the dict branch have run. -/
def finalVarMap (current : List EnvVar) (updates : List (String × String)) :
    List (String × EnvVar) :=
  updates.foldl (fun m kv => applyUpdate m kv.1 kv.2) (buildVarMap current)

/-- Embeds the dict branch of `update_environment` (lines 660-682) end to
end: build the key-indexed map, apply every update of the dict, and read
back `list(current_vars.values())`. -/
def updateEnvValues (current : List EnvVar) (updates : List (String × String)) : List EnvVar :=
  (finalVarMap current updates).map (fun p => p.2)

/-- C1: the error classifier is a total function of the transport signal:
401 maps to Authentication, 403 to Permission, 404 to ResourceNotFound,
400 and 422 to Validation, 429 to RateLimit, every status in 500-599 to
Server, every other status >= 400 to Unknown; a connection failure maps to
Network and an exceeded time budget to Timeout; every input yields exactly
one error kind. -/
theorem c1_theorem :
    (∀ b, (classify (.httpResponse 401 b)).kind = ErrorKind.authentication)
    ∧ (∀ b, (classify (.httpResponse 403 b)).kind = ErrorKind.permission)
    ∧ (∀ b, (classify (.httpResponse 404 b)).kind = ErrorKind.resourceNotFound)
    ∧ (∀ b, (classify (.httpResponse 400 b)).kind = ErrorKind.validation)
    ∧ (∀ b, (classify (.httpResponse 422 b)).kind = ErrorKind.validation)
    ∧ (∀ b, (classify (.httpResponse 429 b)).kind = ErrorKind.rateLimit)
    ∧ (∀ s b, 500 ≤ s → s ≤ 599 → (classify (.httpResponse s b)).kind = ErrorKind.server)
    ∧ (∀ s b, 400 ≤ s → s ∉ ([400, 401, 403, 404, 422, 429] : List Nat) →
        ¬(500 ≤ s ∧ s ≤ 599) → (classify (.httpResponse s b)).kind = ErrorKind.unknown)
    ∧ (∀ d, (classify (.connectionFailure d)).kind = ErrorKind.network)
    ∧ (∀ n, (classify (.timedOut n)).kind = ErrorKind.timeout)
    ∧ (∀ sig, ∃! k, (classify sig).kind = k) := by
  refine ⟨fun b => rfl, fun b => rfl, fun b => rfl, fun b => rfl, fun b => rfl, fun b => rfl,
    ?_, ?_, fun d => rfl, fun n => rfl, fun sig => ⟨(classify sig).kind, rfl, fun k hk => hk.symm⟩⟩
  · intro s b h1 h2
    show classifyStatus s = ErrorKind.server
    unfold classifyStatus
    rw [if_neg (by omega), if_neg (by omega), if_neg (by omega), if_neg (by omega),
      if_neg (by omega), if_pos (by omega)]
  · intro s b h1 h2 h3
    simp only [List.mem_cons, List.not_mem_nil, or_false] at h2
    push_neg at h2
    show classifyStatus s = ErrorKind.unknown
    unfold classifyStatus
    rw [if_neg (by omega), if_neg (by omega), if_neg (by omega), if_neg (by omega),
      if_neg (by omega), if_neg (by omega)]

/-- Witness for C1: concrete instantiations of the hypothesized clauses,
a 503 classified as Server and a 418 classified as Unknown. -/
theorem c1_witness :
    (classify (.httpResponse 503 .empty)).kind = ErrorKind.server
    ∧ (classify (.httpResponse 418 .empty)).kind = ErrorKind.unknown :=
  ⟨c1_theorem.2.2.2.2.2.2.1 503 .empty (by decide) (by decide),
   c1_theorem.2.2.2.2.2.2.2.1 418 .empty (by decide) (by decide) (by decide)⟩

/-- C2: with max_retries = 3 and an operation failing with a Server error
on every call, the Retry Policy makes exactly 4 calls and then surfaces
the last observed error unchanged — same kind, same status, same
message. -/
theorem c2_theorem : ∀ (α : Type) (st : Option Nat) (msg : String),
    (retryExecute (fun _ => (Except.error ⟨ErrorKind.server, st, msg⟩ : Except PError α)) 3).result
        = Except.error ⟨ErrorKind.server, st, msg⟩
    ∧ (retryExecute (fun _ => (Except.error ⟨ErrorKind.server, st, msg⟩ : Except PError α)) 3).calls
        = 4 := by
  intro α st msg
  exact ⟨rfl, rfl⟩

/-- C4: an operation that always fails with a non-retryable kind
(Authentication, Permission, ResourceNotFound, Validation or Unknown) is
called exactly once; the error propagates unchanged and no backoff sleep
happens. -/
theorem c4_theorem : ∀ (α : Type) (e : PError) (maxR : Nat),
    (e.kind = ErrorKind.authentication ∨ e.kind = ErrorKind.permission ∨
     e.kind = ErrorKind.resourceNotFound ∨ e.kind = ErrorKind.validation ∨
     e.kind = ErrorKind.unknown) →
    retryExecute (fun _ => (Except.error e : Except PError α)) maxR =
      ⟨Except.error e, 1, []⟩ := by
  intro α e maxR h
  have hr : retryable e.kind = false := by
    rcases h with h | h | h | h | h <;> rw [h] <;> rfl
  cases maxR <;> simp [retryExecute, runRetry, hr]

/-- Witness for C4: a ResourceNotFound failure with max_retries = 3 is
called once and propagates unchanged with no sleeps. -/
theorem c4_witness :
    retryExecute
      (fun _ => (Except.error ⟨ErrorKind.resourceNotFound, some 404, "nf"⟩ : Except PError Nat)) 3
      = ⟨Except.error ⟨ErrorKind.resourceNotFound, some 404, "nf"⟩, 1, []⟩ :=
  c4_theorem Nat ⟨ErrorKind.resourceNotFound, some 404, "nf"⟩ 3 (Or.inr (Or.inr (Or.inl rfl)))

/-- C5 evaluation: a body with a `meta` key probes as v10+, but a body
with no `meta` key and no fork/meta field inside its nested collection
ALSO probes as v10+ (the probe's unconditional optimistic default), so the
client labels such a response `v10+` rather than the older-version
label. -/
theorem c5_code_eval :
    hasV10Structure (Json.obj [("meta", Json.obj [])]) = some true
    ∧ hasV10Structure (Json.obj [("collection", Json.obj [("item", Json.arr [])])]) = some true
    ∧ (detectApiVersion ⟨none, false⟩
         ⟨200, none, BodyRep.json (Json.obj [("collection", Json.obj [("item", Json.arr [])])])⟩).api_version
        = some "v10+" :=
  ⟨rfl, rfl, rfl⟩

/-- Helper: the body probe always stores exactly the computed label; the
warning branch touches only the warned flag. -/
theorem detectFromBody_api (st : ClientState) (r : Response) :
    (detectFromBody st r).api_version = some (bodyLabel r.body) := by
  rw [detectFromBody.eq_def]
  dsimp only
  split <;> rfl

/-- Helper: `_detect_api_version` always stores the label determined by
the response alone. -/
theorem detect_sets_label (st : ClientState) (r : Response) :
    (detectApiVersion st r).api_version = some (detectLabel r) := by
  rw [detectApiVersion.eq_def, detectLabel.eq_def]
  cases r.versionHeader with
  | none => exact detectFromBody_api st r
  | some h =>
    by_cases he : h.data.isEmpty
    · simp [he, detectFromBody_api]
    · simp [he]

/-- Helper: one pass through the post-retry tail leaves a set version
label untouched and fills an unset one with the response's label. -/
theorem makeRequestTail_api (st : ClientState) (r : Response) :
    ((makeRequestTail st r).1).api_version = some (st.api_version.getD (detectLabel r)) := by
  cases h : st.api_version with
  | none => simp [makeRequestTail, h, detect_sets_label]
  | some v => simp [makeRequestTail, h]

/-- Helper: a client whose version label is already set keeps it across
any sequence of later responses. -/
theorem processResponses_fixed : ∀ (rs : List Response) (st : ClientState) (v : String),
    st.api_version = some v → (processResponses st rs).api_version = some v := by
  intro rs
  induction rs with
  | nil => exact fun st v h => h
  | cons r rest ih =>
    intro st v h
    have hstep : ((makeRequestTail st r).1).api_version = some v := by
      simp [makeRequestTail, h]
    exact ih _ v hstep

/-- C6: version detection is one-shot — the post-retry tail writes
`api_version` on the first observed response (to the response's label) and
every later call leaves it unchanged, over any sequence of subsequent
responses; and the call outcome is the same function of the response for
every detection state, so detection never alters the result of the call
that triggered it. -/
theorem c6_theorem :
    (∀ st r, ((makeRequestTail st r).1).api_version
        = some (st.api_version.getD (detectLabel r)))
    ∧ (∀ s t r, (makeRequestTail s r).2 = (makeRequestTail t r).2)
    ∧ (∀ st r rs, (processResponses ((makeRequestTail st r).1) rs).api_version
        = ((makeRequestTail st r).1).api_version) := by
  refine ⟨makeRequestTail_api, fun s t r => rfl, ?_⟩
  intro st r rs
  exact (processResponses_fixed rs _ _ (makeRequestTail_api st r)).trans
    (makeRequestTail_api st r).symm

/-- C7: client construction succeeds exactly when the API key is present
and starts with `PMAK-`; on success the client starts with no version
label observed (no request has happened), and otherwise construction fails
before anything else. -/
theorem c7_theorem : ∀ c : PostmanConfig,
    (exceptIsOk (PostmanClient.init c) = true ↔
      ∃ k, c.api_key = some k ∧ "PMAK-".data <+: k.data)
    ∧ (∀ ci, PostmanClient.init c = .ok ci →
        ci.state.api_version = none ∧ ci.state.api_version_warned = false) := by
  intro c
  constructor
  · constructor
    · intro h
      cases hk : c.api_key with
      | none => simp [PostmanClient.init, PostmanConfig.validate, hk, exceptIsOk] at h
      | some k =>
        refine ⟨k, rfl, ?_⟩
        by_cases he : k.data.isEmpty
        · simp [PostmanClient.init, PostmanConfig.validate, hk, he, exceptIsOk] at h
        · by_cases hp : ("PMAK-".data).isPrefixOf k.data
          · exact ( List.isPrefixOf_iff_prefix).mp hp
          · simp [PostmanClient.init, PostmanConfig.validate, hk, he, hp, exceptIsOk] at h
    · rintro ⟨k, hk, hp⟩
      have hp' : ("PMAK-".data).isPrefixOf k.data = true :=
        ( List.isPrefixOf_iff_prefix).mpr hp
      have he : k.data.isEmpty = false := by
        cases hd : k.data with
        | nil =>
          rw [hd] at hp
          exact absurd (List.prefix_nil.mp hp) (by decide)
        | cons a t => rfl
      simp [PostmanClient.init, PostmanConfig.validate, hk, he, hp', exceptIsOk]
  · intro ci hci
    unfold PostmanClient.init at hci
    cases hv : c.validate with
    | error e => rw [hv] at hci; cases hci
    | ok u =>
      rw [hv] at hci
      injection hci with h
      rw [← h]
      exact ⟨rfl, rfl⟩

/-- Witness for C7: a key with the required prefix passes validation and
the constructed client has not observed any response. -/
theorem c7_witness :
    exceptIsOk (PostmanClient.init ⟨some "PMAK-abc", none, 60, 3, 30, "INFO"⟩) = true
    ∧ ((⟨⟨some "PMAK-abc", none, 60, 3, 30, "INFO"⟩, 3, ⟨none, false⟩⟩ : ClientInit).state.api_version
          = none
       ∧ (⟨⟨some "PMAK-abc", none, 60, 3, 30, "INFO"⟩, 3, ⟨none, false⟩⟩
           : ClientInit).state.api_version_warned = false) :=
  ⟨(c7_theorem ⟨some "PMAK-abc", none, 60, 3, 30, "INFO"⟩).1.mpr
      ⟨"PMAK-abc", rfl, ( List.isPrefixOf_iff_prefix).mp (by rfl)⟩,
   (c7_theorem ⟨some "PMAK-abc", none, 60, 3, 30, "INFO"⟩).2
      ⟨⟨some "PMAK-abc", none, 60, 3, 30, "INFO"⟩, 3, ⟨none, false⟩⟩ (by rfl)⟩

/-- C8: for every response with status below 400 the request tail returns
the body parsed as JSON, and an empty body yields the empty object; no
error arises on this path. -/
theorem c8_theorem : ∀ (st : ClientState) (status : Nat) (hdr : Option String) (j : Json),
    status < 400 →
    (makeRequestTail st ⟨status, hdr, BodyRep.json j⟩).2 = CallOutcome.success j
    ∧ (makeRequestTail st ⟨status, hdr, BodyRep.empty⟩).2
        = CallOutcome.success (Json.obj []) := by
  intro st status hdr j h
  have hn : ¬(400 ≤ status) := by omega
  constructor <;> simp [makeRequestTail, respJsonE, hn]

/-- Witness for C8: a 200 response with a JSON body and one with an empty
body. -/
theorem c8_witness :
    (makeRequestTail ⟨none, false⟩ ⟨200, none, BodyRep.json Json.null⟩).2
        = CallOutcome.success Json.null
    ∧ (makeRequestTail ⟨none, false⟩ ⟨200, none, BodyRep.empty⟩).2
        = CallOutcome.success (Json.obj []) :=
  c8_theorem ⟨none, false⟩ 200 none Json.null (by omega)

/-- Helper: one-step unfolding of the retry loop. -/
theorem runRetry_step {α : Type} (rld : Nat) (op : Nat → Except PError α)
    (attempt fuel : Nat) :
    runRetry rld op attempt fuel =
      match op attempt with
      | .ok a => ⟨.ok a, attempt + 1, []⟩
      | .error e =>
        if retryable e.kind then
          match fuel with
          | 0 => ⟨.error e, attempt + 1, []⟩
          | f + 1 =>
            let r := runRetry rld op (attempt + 1) f
            ⟨r.result, r.calls, backoffDelay rld e attempt :: r.sleeps⟩
        else ⟨.error e, attempt + 1, []⟩ := by
  rw [runRetry.eq_def]

/-- Helper: if the wrapped operation fails retryably on the next `k`
calls and succeeds on the one after, and at least `k` retries remain, the
retry loop returns that success after exactly `k + 1` further calls. -/
theorem runRetry_ok {α : Type} (rld : Nat) (op : Nat → Except PError α) (a : α) :
    ∀ (k attempt fuel : Nat), k ≤ fuel →
    (∀ j, j < k → ∃ e, op (attempt + j) = .error e ∧ retryable e.kind = true) →
    op (attempt + k) = .ok a →
    (runRetry rld op attempt fuel).result = .ok a
    ∧ (runRetry rld op attempt fuel).calls = attempt + k + 1 := by
  intro k
  induction k with
  | zero =>
    intro attempt fuel _ _ hok
    rw [Nat.add_zero] at hok
    rw [runRetry_step, hok]
    exact ⟨rfl, rfl⟩
  | succ k ih =>
    intro attempt fuel hfuel hfail hok
    obtain ⟨e, he, hre⟩ := hfail 0 (by omega)
    rw [Nat.add_zero] at he
    cases fuel with
    | zero => omega
    | succ f =>
      have hshift : ∀ j, j < k →
          ∃ e', op (attempt + 1 + j) = .error e' ∧ retryable e'.kind = true := by
        intro j hj
        obtain ⟨e', h1, h2⟩ := hfail (j + 1) (by omega)
        refine ⟨e', ?_, h2⟩
        rw [show attempt + 1 + j = attempt + (j + 1) by omega]
        exact h1
      have hok' : op (attempt + 1 + k) = .ok a := by
        rw [show attempt + 1 + k = attempt + (k + 1) by omega]
        exact hok
      have ih' := ih (attempt + 1) f (by omega) hshift hok'
      rw [runRetry_step, he]
      dsimp only
      rw [if_pos hre]
      refine ⟨?_, ?_⟩
      · show (runRetry rld op (attempt + 1) f).result = .ok a
        exact ih'.1
      · show (runRetry rld op (attempt + 1) f).calls = attempt + (k + 1) + 1
        rw [ih'.2]
        omega

/-- C3: for every N with 1 <= N <= max_retries, an operation failing with
a Network error on its first N-1 calls and succeeding on the Nth makes the
Retry Policy return the success result after exactly N calls. -/
theorem c3_theorem : ∀ (α : Type) (a : α) (e : PError) (N maxR : Nat),
    e.kind = ErrorKind.network → 1 ≤ N → N ≤ maxR →
    (retryExecute (fun i => if i + 1 < N then Except.error e else Except.ok a) maxR).result
        = Except.ok a
    ∧ (retryExecute (fun i => if i + 1 < N then Except.error e else Except.ok a) maxR).calls
        = N := by
  intro α a e N maxR hk h1 h2
  obtain ⟨k, rfl⟩ : ∃ k, N = k + 1 := ⟨N - 1, by omega⟩
  have hfail : ∀ j, j < k →
      ∃ e', (if 0 + j + 1 < k + 1 then Except.error e else Except.ok a) = .error e'
        ∧ retryable e'.kind = true := by
    intro j hj
    refine ⟨e, ?_, by rw [hk]; rfl⟩
    rw [if_pos (by omega)]
  have hok : (if 0 + k + 1 < k + 1 then Except.error e else Except.ok a) = .ok a := by
    rw [if_neg (by omega)]
  have h := runRetry_ok 60 (fun i => if i + 1 < k + 1 then Except.error e else Except.ok a)
    a k 0 maxR (by omega) hfail hok
  exact ⟨h.1, h.2.trans (by omega)⟩

/-- Witness for C3: with max_retries = 3, an operation failing with a
Network error once and succeeding on the second call returns the success
result with exactly 2 calls. -/
theorem c3_witness :
    (retryExecute
        (fun i => if i + 1 < 2 then Except.error ⟨ErrorKind.network, none, "net"⟩
                  else Except.ok (7 : Nat)) 3).result = Except.ok 7
    ∧ (retryExecute
        (fun i => if i + 1 < 2 then Except.error ⟨ErrorKind.network, none, "net"⟩
                  else Except.ok (7 : Nat)) 3).calls = 2 :=
  c3_theorem Nat 7 ⟨ErrorKind.network, none, "net"⟩ 2 3 rfl (by omega) (by omega)

/-- Helper: the substring scan decides exactly contiguous-infix
occurrence. -/
theorem containsSub_iff (needle : List Char) : ∀ hay : List Char,
    containsSub hay needle = true ↔ needle <:+: hay := by
  intro hay
  induction hay with
  | nil =>
    rw [containsSub]
    rw [List.infix_nil]
    exact List.isEmpty_iff
  | cons a t ih =>
    rw [containsSub, Bool.or_eq_true, List.infix_cons_iff]
    constructor
    · rintro (h | h)
      · exact Or.inl (( List.isPrefixOf_iff_prefix).mp h)
      · exact Or.inr (ih.mp h)
    · rintro (h | h)
      · exact Or.inl (( List.isPrefixOf_iff_prefix).mpr h)
      · exact Or.inr (ih.mpr h)

/-- Helper: the keyword scan returns `secret` exactly when some keyword
occurs in the lowered key, and returns nothing but `secret` or
`default`. -/
theorem secretScan_spec (h : List Char) : ∀ kws : List String,
    (secretScan h kws = "secret" ↔ ∃ kw ∈ kws, containsSub h kw.data = true)
    ∧ (secretScan h kws = "secret" ∨ secretScan h kws = "default") := by
  intro kws
  induction kws with
  | nil =>
    refine ⟨⟨fun hh => by rw [secretScan] at hh; exact absurd hh (by decide), ?_⟩, Or.inr rfl⟩
    rintro ⟨kw, hmem, -⟩
    exact absurd hmem (List.not_mem_nil kw)
  | cons kw rest ih =>
    by_cases hc : containsSub h kw.data = true
    · have hs : secretScan h (kw :: rest) = "secret" := by
        rw [secretScan, if_pos hc]
      exact ⟨⟨fun _ => ⟨kw, List.mem_cons_self kw rest, hc⟩, fun _ => hs⟩, Or.inl hs⟩
    · have hs : secretScan h (kw :: rest) = secretScan h rest := by
        rw [secretScan, if_neg hc]
      refine ⟨?_, hs ▸ ih.2⟩
      rw [hs, ih.1]
      constructor
      · rintro ⟨kw', hm, hcc⟩
        exact ⟨kw', List.mem_cons_of_mem kw hm, hcc⟩
      · rintro ⟨kw', hm, hcc⟩
        rcases List.mem_cons.mp hm with rfl | hm'
        · exact absurd hcc hc
        · exact ⟨kw', hm', hcc⟩

/-- C9: secret detection is a total, case-insensitive function of the
variable name — it returns `secret` exactly when the lowercased key
contains one of the sensitive keywords as a substring, and `default` in
every other case. -/
theorem c9_theorem : ∀ key : String,
    (detectSecretType key = "secret" ↔
      ∃ kw ∈ sensitiveKeywords, kw.data <:+: (lowerStr key).data)
    ∧ (detectSecretType key = "secret" ∨ detectSecretType key = "default") := by
  intro key
  have h := secretScan_spec (lowerStr key).data sensitiveKeywords
  refine ⟨?_, h.2⟩
  unfold detectSecretType
  rw [h.1]
  constructor
  · rintro ⟨kw, hm, hc⟩
    exact ⟨kw, hm, (containsSub_iff kw.data _).mp hc⟩
  · rintro ⟨kw, hm, hc⟩
    exact ⟨kw, hm, (containsSub_iff kw.data _).mpr hc⟩

/-- Helper: inserting at a key makes that key's lookup yield the new
value. -/
theorem dlookup_dinsert_self (k : String) (v : EnvVar) :
    ∀ m : List (String × EnvVar), dlookup (dinsert m k v) k = some v := by
  intro m
  induction m with
  | nil => simp [dinsert, dlookup]
  | cons p rest ih =>
    obtain ⟨k₀, v₀⟩ := p
    by_cases h : k₀ = k
    · simp [dinsert, dlookup, h]
    · simp [dinsert, dlookup, h, ih]

/-- Helper: inserting at one key leaves every other key's lookup
unchanged. -/
theorem dlookup_dinsert_ne (k k' : String) (v : EnvVar) (h : k' ≠ k) :
    ∀ m : List (String × EnvVar), dlookup (dinsert m k v) k' = dlookup m k' := by
  intro m
  induction m with
  | nil => simp [dinsert, dlookup, Ne.symm h]
  | cons p rest ih =>
    obtain ⟨k₀, v₀⟩ := p
    by_cases h0 : k₀ = k
    · subst h0
      simp [dinsert, dlookup, Ne.symm h]
    · by_cases h1 : k₀ = k'
      · simp [dinsert, dlookup, h0, h1, h]
      · simp [dinsert, dlookup, h0, h1, h, ih]

/-- Helper: a successful lookup is a member of the association list. -/
theorem dlookup_mem : ∀ (m : List (String × EnvVar)) (k : String) (v : EnvVar),
    dlookup m k = some v → (k, v) ∈ m := by
  intro m
  induction m with
  | nil => intro k v h; rw [dlookup] at h; cases h
  | cons p rest ih =>
    intro k v h
    obtain ⟨k₀, v₀⟩ := p
    by_cases h0 : k₀ = k
    · subst h0
      rw [dlookup, if_pos rfl] at h
      cases h
      exact List.mem_cons_self _ _
    · rw [dlookup, if_neg h0] at h
      exact List.mem_cons_of_mem _ (ih k v h)

/-- Helper: an update of one key leaves every other key's variable
untouched. -/
theorem applyUpdate_other (m : List (String × EnvVar)) (u val k : String) (h : k ≠ u) :
    dlookup (applyUpdate m u val) k = dlookup m k := by
  cases hu : dlookup m u with
  | none => simp [applyUpdate, hu, dlookup_dinsert_ne u k _ h]
  | some v₀ => simp [applyUpdate, hu, dlookup_dinsert_ne u k _ h]

/-- Helper: updating an existing key replaces its value and recomputes a
non-secret type while a secret type survives. -/
theorem applyUpdate_self (m : List (String × EnvVar)) (k val : String) (v : EnvVar)
    (hv : dlookup m k = some v) :
    dlookup (applyUpdate m k val) k =
      some (if v.type = some "secret" then { v with value := val }
            else { v with value := val, type := some (detectSecretType k) }) := by
  by_cases hs : v.type = some "secret"
  · simp [applyUpdate, hv, hs, dlookup_dinsert_self]
  · simp [applyUpdate, hv, hs, dlookup_dinsert_self]

/-- Helper: a variable stored with type `secret` keeps a `secret`-typed
binding across one update step, whatever key that step updates. -/
theorem applyUpdate_secret (m : List (String × EnvVar)) (u val k : String) (v : EnvVar)
    (hv : dlookup m k = some v) (hs : v.type = some "secret") :
    ∃ v', dlookup (applyUpdate m u val) k = some v' ∧ v'.type = some "secret" := by
  by_cases h : k = u
  · subst h
    refine ⟨{ v with value := val }, ?_, hs⟩
    rw [applyUpdate_self m k val v hv, if_pos hs]
  · exact ⟨v, (applyUpdate_other m u val k h).trans hv, hs⟩

/-- Helper: a `secret`-typed binding survives the whole update fold. -/
theorem foldl_secret : ∀ (updates : List (String × String)) (m : List (String × EnvVar))
    (k : String) (v : EnvVar),
    dlookup m k = some v → v.type = some "secret" →
    ∃ v', dlookup (updates.foldl (fun mm kv => applyUpdate mm kv.1 kv.2) m) k = some v'
      ∧ v'.type = some "secret" := by
  intro updates
  induction updates with
  | nil => exact fun m k v hv hs => ⟨v, hv, hs⟩
  | cons kv rest ih =>
    intro m k v hv hs
    obtain ⟨v', hv', hs'⟩ := applyUpdate_secret m kv.1 kv.2 k v hv hs
    exact ih _ k v' hv' hs'

/-- Helper: keys never updated keep their binding across the whole update
fold. -/
theorem foldl_untouched : ∀ (updates : List (String × String)) (m : List (String × EnvVar))
    (k : String), (∀ kv ∈ updates, k ≠ kv.1) →
    dlookup (updates.foldl (fun mm kv => applyUpdate mm kv.1 kv.2) m) k = dlookup m k := by
  intro updates
  induction updates with
  | nil => intro m k _; rfl
  | cons kv rest ih =>
    intro m k h
    have h1 : k ≠ kv.1 := h kv (List.mem_cons_self _ _)
    exact (ih _ k fun kv' hm => h kv' (List.mem_cons_of_mem _ hm)).trans
      (applyUpdate_other m kv.1 kv.2 k h1)

/-- Helper: with pairwise-distinct update keys, a key present in the
updates ends with the new value and the type rule applied to its original
variable. -/
theorem foldl_updated : ∀ (updates : List (String × String)) (m : List (String × EnvVar))
    (k val : String) (v : EnvVar),
    (updates.map Prod.fst).Nodup → (k, val) ∈ updates → dlookup m k = some v →
    dlookup (updates.foldl (fun mm kv => applyUpdate mm kv.1 kv.2) m) k =
      some (if v.type = some "secret" then { v with value := val }
            else { v with value := val, type := some (detectSecretType k) }) := by
  intro updates
  induction updates with
  | nil => intro m k val v _ hmem; exact absurd hmem (List.not_mem_nil _)
  | cons kv rest ih =>
    intro m k val v hnd hmem hv
    have hnd' : (kv.1 :: rest.map Prod.fst).Nodup := by simpa using hnd
    rcases List.mem_cons.mp hmem with heq | hmem'
    · subst heq
      have hnotin : ∀ kv' ∈ rest, (k, val).1 ≠ kv'.1 := by
        intro kv' hm' heq'
        exact (List.nodup_cons.mp hnd').1 (List.mem_map.mpr ⟨kv', hm', heq'.symm⟩)
      exact (foldl_untouched rest _ _ hnotin).trans (applyUpdate_self m _ val v hv)
    · have hkm : k ∈ rest.map Prod.fst := List.mem_map.mpr ⟨(k, val), hmem', rfl⟩
      have hne : k ≠ kv.1 := by
        intro heq'
        rw [heq'] at hkm
        exact (List.nodup_cons.mp hnd').1 hkm
      have hv' : dlookup (applyUpdate m kv.1 kv.2) k = some v :=
        (applyUpdate_other m kv.1 kv.2 k hne).trans hv
      exact ih _ k val v (List.nodup_cons.mp hnd').2 hmem' hv'

/-- C10 (amended): for every environment and every update dict (its keys
pairwise distinct, as Python dict keys are), a variable stored with type
`secret` still has a `secret`-typed binding after `update_environment`;
a variable whose key appears in the dict ends with the dict's value,
keeping type `secret` if it had it and otherwise getting the type
recomputed from its key — so a non-secret variable with a sensitive name
named in the dict is upgraded; and a variable whose key is not named in
the dict is left entirely untouched (same value, same type), so no
upgrade ever happens to a variable the dict does not name. -/
theorem c10_theorem : ∀ (current : List EnvVar) (updates : List (String × String)),
    (updates.map Prod.fst).Nodup →
    (∀ k v, dlookup (buildVarMap current) k = some v → v.type = some "secret" →
      ∃ v', dlookup (finalVarMap current updates) k = some v'
        ∧ v'.type = some "secret" ∧ v' ∈ updateEnvValues current updates)
    ∧ (∀ k val v, (k, val) ∈ updates → dlookup (buildVarMap current) k = some v →
      ∃ v', dlookup (finalVarMap current updates) k = some v'
        ∧ v'.value = val
        ∧ v'.type = some (if v.type = some "secret" then "secret" else detectSecretType k)
        ∧ v' ∈ updateEnvValues current updates)
    ∧ (∀ k v, (∀ kv ∈ updates, k ≠ kv.1) → dlookup (buildVarMap current) k = some v →
      dlookup (finalVarMap current updates) k = some v
        ∧ v ∈ updateEnvValues current updates) := by
  intro current updates hnd
  refine ⟨?_, ?_, ?_⟩
  · intro k v hv hs
    obtain ⟨v', hv', hs'⟩ := foldl_secret updates (buildVarMap current) k v hv hs
    exact ⟨v', hv', hs', List.mem_map.mpr ⟨(k, v'), dlookup_mem _ k v' hv', rfl⟩⟩
  · intro k val v hmem hv
    have h := foldl_updated updates (buildVarMap current) k val v hnd hmem hv
    refine ⟨_, h, ?_, ?_, List.mem_map.mpr ⟨(k, _), dlookup_mem _ k _ h, rfl⟩⟩
    · by_cases hs : v.type = some "secret" <;> simp [hs]
    · by_cases hs : v.type = some "secret" <;> simp [hs]
  · intro k v hk hv
    have h : dlookup (finalVarMap current updates) k = some v :=
      (foldl_untouched updates (buildVarMap current) k hk).trans hv
    exact ⟨h, List.mem_map.mpr ⟨(k, v), dlookup_mem _ k v h, rfl⟩⟩

/-- Witness for C10: a secret-typed `api_token` variable updated by a
dict naming it keeps type `secret` and takes the new value, and a
variable not named by the dict keeps its exact binding. -/
theorem c10_witness :
    (∃ v', dlookup (finalVarMap [⟨"api_token", "old", some "secret", true⟩]
          [("api_token", "new")]) "api_token" = some v'
      ∧ v'.type = some "secret"
      ∧ v' ∈ updateEnvValues [⟨"api_token", "old", some "secret", true⟩] [("api_token", "new")])
    ∧ (∃ v', dlookup (finalVarMap [⟨"api_token", "old", some "secret", true⟩]
          [("api_token", "new")]) "api_token" = some v'
      ∧ v'.value = "new"
      ∧ v'.type = some (if (some "secret" : Option String) = some "secret" then "secret"
                        else detectSecretType "api_token")
      ∧ v' ∈ updateEnvValues [⟨"api_token", "old", some "secret", true⟩] [("api_token", "new")])
    ∧ (dlookup (finalVarMap [⟨"api_key", "old", some "default", true⟩] [("other", "x")])
          "api_key" = some ⟨"api_key", "old", some "default", true⟩
      ∧ (⟨"api_key", "old", some "default", true⟩ : EnvVar)
          ∈ updateEnvValues [⟨"api_key", "old", some "default", true⟩] [("other", "x")]) :=
  ⟨( c10_theorem [⟨"api_token", "old", some "secret", true⟩] [("api_token", "new")]
      (by decide)).1 "api_token" ⟨"api_token", "old", some "secret", true⟩ rfl rfl,
   ( c10_theorem [⟨"api_token", "old", some "secret", true⟩] [("api_token", "new")]
      (by decide)).2.1 "api_token" "new" ⟨"api_token", "old", some "secret", true⟩
      (List.mem_cons_self _ _) rfl,
   ( c10_theorem [⟨"api_key", "old", some "default", true⟩] [("other", "x")]
      (by decide)).2.2 "api_key" ⟨"api_key", "old", some "default", true⟩ (by decide) rfl⟩

/-- Counterexample for C10 as stated: an environment whose variables do
include a secret-typed variable (`token`) also holds a non-secret
variable `api_key` whose name matches a sensitive keyword; an update dict
not naming `api_key` leaves its type `default`, so the claimed upgrade of
every sensitively-named non-secret variable does not happen. -/
theorem c10_counterexample :
    ((⟨"token", "t", some "secret", true⟩ : EnvVar)
        ∈ [(⟨"token", "t", some "secret", true⟩ : EnvVar),
           ⟨"api_key", "old", some "default", true⟩]
      ∧ (⟨"token", "t", some "secret", true⟩ : EnvVar).type = some "secret")
    ∧ detectSecretType "api_key" = "secret"
    ∧ updateEnvValues
        [⟨"token", "t", some "secret", true⟩, ⟨"api_key", "old", some "default", true⟩]
        [("other", "x")]
        = [⟨"token", "t", some "secret", true⟩, ⟨"api_key", "old", some "default", true⟩,
           ⟨"other", "x", some "default", true⟩] :=
  ⟨⟨List.mem_cons_self _ _, rfl⟩, rfl, rfl⟩
